import Mathlib

set_option maxRecDepth 10000
set_option maxHeartbeats 1000000

/-!
Verification of the weather-route-map core algorithms: the flexible-polyline
codec, the time-banded forecast selection, waypoint timing and waypoint
deduplication.  Each definition is a shallow embedding of the corresponding
JavaScript function; JavaScript 32-bit integer semantics are made explicit
via `u32` / `toI32` wrappers, JavaScript numbers that hold exact values are
modelled as `Int` / `ℚ`, and thrown exceptions as `Except String`.
-/

namespace WeatherRoute

/-! ## JavaScript 32-bit integer primitives

JS bitwise operators convert their operands to 32-bit two's complement
(`ToInt32`), operate on the bit pattern, and reinterpret the result as a
signed 32-bit value.  We carry bit patterns as `Nat` values `< 2^32`. -/

/-- The unsigned 32-bit pattern of an integer (`ToUint32`). -/
def u32 (x : Int) : Nat := (x % (2 ^ 32 : Int)).toNat

/-- Reinterpret a bit pattern as a signed 32-bit integer. -/
def toI32 (n : Nat) : Int :=
  if n % 2 ^ 32 < 2 ^ 31 then ((n % 2 ^ 32 : Nat) : Int)
  else ((n % 2 ^ 32 : Nat) : Int) - 2 ^ 32

/-- JS `a & b`. -/
def jsAnd (a b : Int) : Int := toI32 (Nat.land (u32 a) (u32 b))

/-- JS `a | b`. -/
def jsOr (a b : Int) : Int := toI32 (Nat.lor (u32 a) (u32 b))

/-- JS `a << k` (shift count taken mod 32). -/
def jsShl (a : Int) (k : Nat) : Int := toI32 ((u32 a) <<< (k % 32))

/-- JS `a >>> k`: unsigned right shift, result is a non-negative value. -/
def jsShrU (a : Int) (k : Nat) : Int := ((u32 a) >>> (k % 32) : Nat)

/-- JS `a >> k`: sign-propagating right shift = floor division of the
signed value by `2^k`. -/
def jsShr (a : Int) (k : Nat) : Int := Int.fdiv (toI32 (u32 a)) (2 ^ (k % 32))

/-- JS `~a`. -/
def jsNot (a : Int) : Int := -(toI32 (u32 a)) - 1

/-- JS `Math.round`: round half toward positive infinity. -/
def jsRound (q : ℚ) : Int := ⌊q + 1 / 2⌋

/-! ## FlexPolylineDecoder (src/unnamed/part_000)

Strings are modelled as lists of UTF-16 code units (`Nat`). -/

/-- The fixed 64-symbol table of `decodeChar`, indexed by `charCode - 45`;
`-1` marks the gaps of the alphabet. -/
def DECODING_TABLE : List Int :=
  [62, -1, -1, 52, 53, 54, 55, 56, 57, 58, 59, 60, 61, -1, -1, -1, -1, -1, -1, -1,
   0, 1, 2, 3, 4, 5, 6, 7, 8, 9, 10, 11, 12, 13, 14, 15, 16, 17, 18, 19, 20, 21,
   22, 23, 24, 25, -1, -1, -1, -1, 63, -1, 26, 27, 28, 29, 30, 31, 32, 33, 34, 35,
   36, 37, 38, 39, 40, 41, 42, 43, 44, 45, 46, 47, 48, 49, 50, 51]

/-- `decodeChar`: table lookup by `charCode - 45`.  Outside the table JS
yields `undefined`, which the caller's bitwise operations coerce to 0. -/
def decodeChar (charCode : Nat) : Int :=
  if charCode < 45 then 0 else DECODING_TABLE.getD (charCode - 45) 0

/-- One step of the `decodeUnsignedValues` loop: state is
`(result bit pattern, shift, emitted integers so far)`. -/
def decodeStep (st : Nat × Nat × List Int) (charCode : Nat) : Nat × Nat × List Int :=
  let result := st.1
  let shift := st.2.1
  let acc := st.2.2
  let value := u32 (decodeChar charCode)
  let result := Nat.lor result (((Nat.land value 0x1F) <<< (shift % 32)) % 2 ^ 32)
  if Nat.land value 0x20 = 0 then (0, 0, acc ++ [toI32 result])
  else (result, shift + 5, acc)

/-- `decodeUnsignedValues`: fold the step over the input; error if a
continuation bit is still pending at the end of the input. -/
def decodeUnsignedValues (encoded : List Nat) : Except String (List Int) :=
  let st := encoded.foldl decodeStep (0, 0, [])
  if st.2.1 > 0 then Except.error "Invalid encoding"
  else Except.ok st.2.2

/-- `decodeHeader`: version gate plus bit-unpacking of the header word. -/
def decodeHeader (version encodedHeader : Int) :
    Except String (Int × Int × Int) :=
  if version ≠ 1 then Except.error "Invalid format version"
  else
    Except.ok (jsAnd encodedHeader 15,
               jsAnd (jsShr encodedHeader 4) 7,
               jsAnd (jsShr encodedHeader 7) 15)

/-- `toSigned`: undo the zig-zag mapping. -/
def toSigned (val : Int) : Int :=
  let res := if jsAnd val 1 ≠ 0 then jsNot val else val
  jsShr res 1

/-- The 2-dimensional decode loop of `decodePolyline`.  A leftover single
integer makes the index counter overshoot `decoder.length`, which the code
reports as a premature ending (the coordinate pushed in that last step is
discarded because the whole call throws). -/
def decodeGroups2 (factorDegree : ℚ) :
    List Int → Int → Int → Except String (List (List ℚ))
  | [], _, _ => Except.ok []
  | [_], _, _ => Except.error "Invalid encoding. Premature ending reached"
  | d1 :: d2 :: rest, lastLat, lastLng =>
    let lastLat := lastLat + toSigned d1
    let lastLng := lastLng + toSigned d2
    match decodeGroups2 factorDegree rest lastLat lastLng with
    | Except.error e => Except.error e
    | Except.ok res =>
      Except.ok ([(lastLat : ℚ) / factorDegree, (lastLng : ℚ) / factorDegree] :: res)

/-- The 3-dimensional decode loop of `decodePolyline`. -/
def decodeGroups3 (factorDegree factorZ : ℚ) :
    List Int → Int → Int → Int → Except String (List (List ℚ))
  | [], _, _, _ => Except.ok []
  | [_], _, _, _ => Except.error "Invalid encoding. Premature ending reached"
  | [_, _], _, _, _ => Except.error "Invalid encoding. Premature ending reached"
  | d1 :: d2 :: d3 :: rest, lastLat, lastLng, lastZ =>
    let lastLat := lastLat + toSigned d1
    let lastLng := lastLng + toSigned d2
    let lastZ := lastZ + toSigned d3
    match decodeGroups3 factorDegree factorZ rest lastLat lastLng lastZ with
    | Except.error e => Except.error e
    | Except.ok res =>
      Except.ok ([(lastLat : ℚ) / factorDegree, (lastLng : ℚ) / factorDegree,
                  (lastZ : ℚ) / factorZ] :: res)

/-- `decodePolyline` applied to an already decoded unsigned-integer stream:
header parsing followed by the delta-accumulation loop.  A missing
`decoder[0]` / `decoder[1]` is JS `undefined`, which behaves as 0 in the
version comparison and in the header's bitwise unpacking. -/
def decodeFromStream (decoder : List Int) : Except String (List (List ℚ)) :=
  match decodeHeader (decoder.getD 0 0) (decoder.getD 1 0) with
  | Except.error e => Except.error e
  | Except.ok (precision, thirdDim, thirdDimPrecision) =>
    let factorDegree : ℚ := (10 : ℚ) ^ precision.toNat
    let factorZ : ℚ := (10 : ℚ) ^ thirdDimPrecision.toNat
    if thirdDim ≠ 0 then
      decodeGroups3 factorDegree factorZ (decoder.drop 2) 0 0 0
    else
      decodeGroups2 factorDegree (decoder.drop 2) 0 0

/-- `decodePolyline`: unsigned-stream decode, then coordinate decode. -/
def decodePolyline (encoded : List Nat) : Except String (List (List ℚ)) :=
  match decodeUnsignedValues encoded with
  | Except.error e => Except.error e
  | Except.ok decoder => decodeFromStream decoder

/-! ## Manual FlexPolyline encoder (src/unnamed/part_004)

`encodeFlexPolyline` hard-codes precision 5 and emits characters with
`String.fromCharCode(... + 63)`.  Note the source's continuation character
is `(value & 0x1F) | 0x20 + 63`: JS precedence makes this
`(value & 0x1F) | 95`. -/

/-- `encodeUnsignedVarintHERE`: emit 5-bit groups, low first.
`String.fromCharCode` truncates the char code to 16 bits (`ToUint16`). -/
def encodeUnsignedVarintHERE (value : Int) : List Nat :=
  if h : 32 ≤ value then
    ((jsOr (jsAnd value 0x1F) (0x20 + 63)) % (65536 : Int)).toNat ::
      encodeUnsignedVarintHERE (jsShrU value 5)
  else
    [((value + 63) % (65536 : Int)).toNat]
termination_by value.toNat
decreasing_by
  simp only [jsShrU, u32, Nat.shiftRight_eq_div_pow]
  norm_num
  omega

/-- `encodeSignedVarintHERE`: zig-zag then unsigned varint. -/
def encodeSignedVarintHERE (value : Int) : List Nat :=
  let unsignedValue :=
    if value < 0 then jsOr (jsShl (-value - 1) 1) 1 else jsShl value 1
  encodeUnsignedVarintHERE unsignedValue

/-- `encodeFlexPolyline`: header byte `(1 << 4) | 5` shifted into the
ASCII range by `+ 63`, then per-coordinate scaled deltas (precision is
hard-coded to 5; coordinates shorter than 2 entries are skipped). -/
def encodeFlexPolyline (coordinates : List (List ℚ)) : List Nat :=
  if coordinates.isEmpty then []
  else
    let headerByte := jsOr (jsShl 1 4) 5
    let header := ((headerByte + 63) % (65536 : Int)).toNat
    let step := fun (st : Int × Int × List Nat) (coord : List ℚ) =>
      let (prevLat, prevLng, out) := st
      if coord.length < 2 then (prevLat, prevLng, out)
      else
        let lat := jsRound (coord.getD 0 0 * 100000)
        let lng := jsRound (coord.getD 1 0 * 100000)
        let deltaLat := lat - prevLat
        let deltaLng := lng - prevLng
        (lat, lng,
         out ++ encodeSignedVarintHERE deltaLat ++ encodeSignedVarintHERE deltaLng)
    header :: (coordinates.foldl step (0, 0, [])).2.2

/-! ## WeatherManager (src/unnamed/part_002)

The OpenWeather payload and the normalized sample.  JS `undefined` fields
are `Option`; the JS `a || b` fallback on numbers treats 0 as falsy and on
strings treats the empty string as falsy. -/

/-- JS `a || b` on an optional number: 0 and `undefined` fall through. -/
def jsOrElse (a : Option ℚ) (b : ℚ) : ℚ :=
  match a with
  | some x => if x = 0 then b else x
  | none => b

/-- A `current` or `hourly[]` record of the OpenWeather one-call payload. -/
structure WeatherEntry where
  dt : Int
  temp : ℚ
  humidity : ℚ
  wind_speed : Option ℚ
  visibility : Option ℚ
  weatherDesc : String
  rain1h : Option ℚ
  rain3h : Option ℚ
  snow1h : Option ℚ
  snow3h : Option ℚ
  feels_like : Option ℚ
  wind_gust : Option ℚ
  wind_deg : Option ℚ
  pop : Option ℚ
deriving DecidableEq, Repr

/-- A `minutely[]` record. -/
structure MinuteEntry where
  dt : Int
  precipitation : Option ℚ
deriving DecidableEq, Repr

/-- A `daily[]` record; `rainNum` models the numeric form of
`closestDay.rain` and `rain1d` the `closestDay.rain['1d']` form. -/
structure DailyEntry where
  dt : Int
  tempDay : ℚ
  humidity : ℚ
  wind_speed : Option ℚ
  weatherDesc : String
  rain1d : Option ℚ
  rainNum : Option ℚ
  pop : Option ℚ
  feels_like_day : Option ℚ
  wind_gust : Option ℚ
  wind_deg : Option ℚ
deriving DecidableEq, Repr

/-- The one-call payload. -/
structure ApiResponse where
  current : WeatherEntry
  minutely : Option (List MinuteEntry)
  hourly : Option (List WeatherEntry)
  daily : Option (List DailyEntry)
deriving DecidableEq, Repr

/-- The normalized weather sample built by the selection functions. -/
structure WeatherData where
  temperature : ℚ
  weatherDesc : String
  humidity : ℚ
  windSpeed : Int
  visibility : Option ℚ
  timestamp : Int
  isCurrentData : Bool
  precipitation : ℚ
  rainProbability : ℚ
  feelsLike : Option ℚ
  windGust : Option Int
  windDeg : Option ℚ
  snow : Option ℚ
  rain : Option ℚ
deriving DecidableEq, Repr

/-- The sample built inline in the `diff < 300` branch of
`selectWeatherUpTo48Hours` (lines 91-148 of the source). -/
def instantData (cur : WeatherEntry) : WeatherData :=
  let precipitation := jsOrElse cur.rain1h (jsOrElse cur.rain3h 0)
  { temperature := cur.temp
    weatherDesc := cur.weatherDesc
    humidity := cur.humidity
    windSpeed := jsRound (jsOrElse cur.wind_speed 0 * (3.6 : ℚ))
    visibility := some (jsOrElse cur.visibility 0 / 1000)
    timestamp := cur.dt
    isCurrentData := true
    precipitation := precipitation
    rainProbability := if 0 < precipitation then 90 else 0
    feelsLike := cur.feels_like
    windGust := cur.wind_gust.map (fun g => jsRound (g * (3.6 : ℚ)))
    windDeg := cur.wind_deg
    snow := match cur.snow1h with | some s => some s | none => cur.snow3h
    rain := match cur.rain1h with | some r => some r | none => cur.rain3h }

/-- The rain-probability computation of the minute band (lines 179-199):
a base keyed to point-in-time precipitation, else tiered thresholds over a
symmetric 30-minute window. -/
def minuteRainProbability (ms : List MinuteEntry) (minutelyIndex : Nat)
    (precip : ℚ) : ℚ :=
  let startIdx : Int := max 0 ((minutelyIndex : Int) - 15)
  let endIdx : Int := min ((ms.length : Int) - 1) ((minutelyIndex : Int) + 15)
  let surroundingMinutes := (ms.drop startIdx.toNat).take (endIdx + 1 - startIdx).toNat
  if 0 < precip then min 95 (60 + precip * 15)
  else
    let precipSum := surroundingMinutes.foldl (fun s m => s + jsOrElse m.precipitation 0) 0
    let minutesWithRain :=
      (surroundingMinutes.filter (fun m => 0 < jsOrElse m.precipitation 0)).length
    if 1 < precipSum then min 80 (25 + precipSum * 12)
    else if 5 < minutesWithRain then min 60 (15 + (minutesWithRain : ℚ) * 3)
    else if 0 < minutesWithRain then min 40 ((minutesWithRain : ℚ) * 4)
    else 0

/-- The sample built inline in the minute band (lines 165-217): fast field
(precipitation) from the minutely entry, the rest from the chosen slow
source. -/
def minuteData (source : WeatherEntry) (targetMinute : MinuteEntry)
    (rainProbability : ℚ) : WeatherData :=
  { temperature := source.temp
    weatherDesc := source.weatherDesc
    humidity := source.humidity
    windSpeed := jsRound (jsOrElse source.wind_speed 0 * (3.6 : ℚ))
    visibility := some (jsOrElse source.visibility 0 / 1000)
    timestamp := targetMinute.dt
    isCurrentData := false
    precipitation := jsOrElse targetMinute.precipitation 0
    rainProbability := rainProbability
    feelsLike := source.feels_like
    windGust := source.wind_gust.map (fun g => jsRound (g * (3.6 : ℚ)))
    windDeg := source.wind_deg
    snow := source.snow1h
    rain := source.rain1h }

/-- `formatHourlyData` (lines 237-276). -/
def formatHourlyData (chosen : WeatherEntry) : WeatherData :=
  { temperature := chosen.temp
    weatherDesc := chosen.weatherDesc
    humidity := chosen.humidity
    windSpeed := jsRound (jsOrElse chosen.wind_speed 0 * (3.6 : ℚ))
    visibility := some (jsOrElse chosen.visibility 0 / 1000)
    timestamp := chosen.dt
    isCurrentData := false
    precipitation := jsOrElse chosen.rain1h 0
    rainProbability := (jsRound (jsOrElse chosen.pop 0 * 100) : ℚ)
    feelsLike := chosen.feels_like
    windGust := chosen.wind_gust.map (fun g => jsRound (g * (3.6 : ℚ)))
    windDeg := chosen.wind_deg
    snow := chosen.snow1h
    rain := chosen.rain1h }

/-- `_formatCurrent` (lines 342-369): rain probability from the next
hourly entry when present. -/
def formatCurrent (current : WeatherEntry) (nextHour : Option WeatherEntry) :
    WeatherData :=
  { temperature := current.temp
    weatherDesc := current.weatherDesc
    humidity := current.humidity
    windSpeed := jsRound (jsOrElse current.wind_speed 0 * (3.6 : ℚ))
    visibility := some (jsOrElse current.visibility 0 / 1000)
    timestamp := current.dt
    isCurrentData := true
    precipitation := jsOrElse current.rain1h (jsOrElse current.rain3h 0)
    rainProbability := (jsRound (jsOrElse (nextHour.bind WeatherEntry.pop) 0 * 100) : ℚ)
    feelsLike := current.feels_like
    windGust := current.wind_gust.map (fun g => jsRound (g * (3.6 : ℚ)))
    windDeg := current.wind_deg
    snow := none
    rain := none }

/-- The daily sample of `selectWeatherAfter48Hours` (lines 315-337): note
that it carries no visibility, snow or rain field. -/
def dailyData (closestDay : DailyEntry) : WeatherData :=
  { temperature := closestDay.tempDay
    weatherDesc := closestDay.weatherDesc
    humidity := closestDay.humidity
    windSpeed := jsRound (jsOrElse closestDay.wind_speed 0 * (3.6 : ℚ))
    visibility := none
    timestamp := closestDay.dt
    isCurrentData := false
    precipitation := jsOrElse closestDay.rain1d (jsOrElse closestDay.rainNum 0)
    rainProbability := (jsRound (jsOrElse closestDay.pop 0 * 100) : ℚ)
    feelsLike := closestDay.feels_like_day
    windGust := closestDay.wind_gust.map (fun g => jsRound (g * (3.6 : ℚ)))
    windDeg := closestDay.wind_deg
    snow := none
    rain := none }

/-- `minutely[minutelyIndex] || minutely[0]`: the out-of-bounds fallback
goes to the FIRST entry, not to the last one. -/
def targetMinuteOf (ms : List MinuteEntry) (minutelyIndex : Nat) :
    Option MinuteEntry :=
  match ms.get? minutelyIndex with
  | some m => some m
  | none => ms.get? 0

/-- The scan for the hourly entries surrounding the target (lines 225-234):
`prev` is overwritten by every entry with `dt ≤ target`; the loop stops at
the first entry with `dt > target`. -/
def findPrevNext (target : Int) (prev : Option WeatherEntry) :
    List WeatherEntry → Option WeatherEntry × Option WeatherEntry
  | [] => (prev, none)
  | h :: t => if h.dt ≤ target then findPrevNext target (some h) t else (prev, some h)

/-- The slow-source choice of the minute band (lines 157-163). -/
def minuteSource (resp : ApiResponse) (minutesAhead : Nat) : WeatherEntry :=
  if minutesAhead < 30 then resp.current
  else
    match resp.hourly with
    | some hs => match hs.get? 1 with | some h => h | none => resp.current
    | none => resp.current

/-- `selectWeatherUpTo48Hours` (lines 85-295).  Accessing a member of
`undefined` (empty `minutely`, or the final fallback's `hourly[0]` with
`hourly` absent) throws a `TypeError` in JS, modelled as `Except.error`. -/
def selectWeatherUpTo48Hours (resp : ApiResponse) (targetTimestamp : Int) :
    Except String WeatherData :=
  let now := resp.current.dt
  let diff := targetTimestamp - now
  if diff < 300 then Except.ok (instantData resp.current)
  else if 300 ≤ diff ∧ diff ≤ 3600 ∧ resp.minutely.isSome then
    let ms := resp.minutely.getD []
    let minutelyIndex := (diff / 60).toNat
    match targetMinuteOf ms minutelyIndex with
    | none => Except.error "TypeError: targetMinute is undefined"
    | some targetMinute =>
      let source := minuteSource resp minutelyIndex
      let precip := jsOrElse targetMinute.precipitation 0
      Except.ok (minuteData source targetMinute
        (minuteRainProbability ms minutelyIndex precip))
  else
    let hourResult : Option WeatherData :=
      match resp.hourly with
      | some hs =>
        if 0 < hs.length then
          match findPrevNext targetTimestamp none hs with
          | (some prevHour, some nextHour) =>
            let minutesIntoNextHour := (targetTimestamp - prevHour.dt) / 60
            some (formatHourlyData
              (if 30 < minutesIntoNextHour then nextHour else prevHour))
          | (some prevHour, none) => some (formatHourlyData prevHour)
          | (none, some nextHour) => some (formatHourlyData nextHour)
          | (none, none) => none
        else none
      | none => none
    match hourResult with
    | some data => Except.ok data
    | none =>
      match resp.hourly with
      | none => Except.error "TypeError: apiResponse.hourly is undefined"
      | some hs => Except.ok (formatCurrent resp.current (hs.get? 0))

/-- The closest-day scan of `selectWeatherAfter48Hours` (lines 303-313):
strict improvement only, so ties keep the earliest entry. -/
def closestDayScan (targetTimestamp : Int) :
    List DailyEntry → DailyEntry → DailyEntry
  | [], best => best
  | d :: rest, best =>
    if |targetTimestamp - d.dt| < |targetTimestamp - best.dt| then
      closestDayScan targetTimestamp rest d
    else closestDayScan targetTimestamp rest best

/-- `selectWeatherAfter48Hours` (lines 298-340). -/
def selectWeatherAfter48Hours (resp : ApiResponse) (targetTimestamp : Int) :
    Except String WeatherData :=
  let dailyEmpty := match resp.daily with
    | none => true
    | some ds => ds.isEmpty
  if dailyEmpty then
    match resp.hourly with
    | none => Except.error "TypeError: apiResponse.hourly is undefined"
    | some hs => Except.ok (formatCurrent resp.current (hs.get? 0))
  else
    match resp.daily with
    | none => Except.error "unreachable"
    | some ds =>
      match ds with
      | [] => Except.error "unreachable"
      | d0 :: rest => Except.ok (dailyData (closestDayScan targetTimestamp rest d0))

/-- `generateDemoWeatherPoint` (lines 689-714) with an injectable random
source: `rnd i` stands for the i-th `Math.random()` call of the body. -/
def generateDemoWeatherPoint (rnd : ℕ → ℚ) (nowTs : Int) : WeatherData :=
  { temperature := 10 + rnd 0 * 15
    weatherDesc := (["Clear sky", "Partly cloudy", "Cloudy", "Light rain"].getD
      (⌊rnd 1 * 4⌋).toNat "")
    humidity := 50 + rnd 2 * 40
    windSpeed := jsRound (5 + rnd 3 * 20)
    visibility := some (8 + rnd 4 * 7)
    precipitation := if rnd 5 < (0.3 : ℚ) then rnd 6 * 5 else 0
    rainProbability := (jsRound (rnd 7 * 100) : ℚ)
    feelsLike := some ((jsRound (10 + rnd 8 * 15) : Int) : ℚ)
    timestamp := nowTs
    isCurrentData := true
    windGust := if (0.2 : ℚ) < rnd 9 then some (jsRound (8 + rnd 10 * 17)) else none
    windDeg := if (0.1 : ℚ) < rnd 11 then some ((jsRound (rnd 12 * 360) : Int) : ℚ) else none
    snow := none
    rain := none }

/-- `getWeatherAtPoint` (lines 31-82): the fetched payload is modelled as
an `Except`; every thrown error (fetch failure or a selection `TypeError`)
is caught and replaced by demo data.  The source's third branch (current /
past times) is unreachable because its first condition already covers
`timestamp - now ≤ 48h`. -/
def getWeatherAtPoint (fetched : Except String ApiResponse)
    (timestamp : Int) (rnd : ℕ → ℚ) (nowTs : Int) : WeatherData :=
  let attempt : Except String WeatherData :=
    match fetched with
    | Except.error e => Except.error e
    | Except.ok json =>
      if timestamp - json.current.dt ≤ 3600 * 48 then
        selectWeatherUpTo48Hours json timestamp
      else selectWeatherAfter48Hours json timestamp
  match attempt with
  | Except.ok data => data
  | Except.error _ => generateDemoWeatherPoint rnd nowTs

/-! ## RouteManager: waypoint timings (src/js/route-manager.js 609-651) -/

/-- The slice of a route waypoint that `calculateWaypointTimings` reads. -/
structure RouteWaypoint where
  lat : ℚ
  lng : ℚ
  distance : Option ℚ
deriving DecidableEq, Repr

/-- One output record of `calculateWaypointTimings`. -/
structure TimedWaypoint where
  src : RouteWaypoint
  progress : ℚ
  estimatedArrivalTime : Int
deriving DecidableEq, Repr

/-- `calculateWaypointTimings`: distance-based progress when this
waypoint's cumulative distance is present and the last waypoint's distance
is positive, otherwise index-based progress. -/
def calculateWaypointTimings (waypoints : List RouteWaypoint)
    (totalDurationSeconds : ℚ) (departureTimestamp : Int) : List TimedWaypoint :=
  let lastDist : Option ℚ := waypoints.getLast?.bind RouteWaypoint.distance
  waypoints.mapIdx (fun index waypoint =>
    let progress :=
      if waypoint.distance.isSome ∧ 0 < lastDist.getD 0 then
        waypoint.distance.getD 0 / lastDist.getD 0
      else (index : ℚ) / (max 1 (waypoints.length - 1) : ℕ)
    { src := waypoint
      progress := progress
      estimatedArrivalTime :=
        departureTimestamp + jsRound (totalDurationSeconds * progress) })

/-! ## RouteManager: waypoint deduplication (src/js/route-manager.js 1861-1928)

JS strings are modelled as lists of UTF-16 code units so that the `||`
falsiness of the empty string and the character class of the glyph-strip
regex are exact. -/

/-- Code units of an ASCII string literal. -/
def jsOfString (s : String) : List Nat := s.data.map Char.toNat

/-- JS `a || b` on an optional string: the empty string falls through. -/
def jsOrStr (a : Option (List Nat)) (b : List Nat) : List Nat :=
  match a with
  | some s => if s = [] then b else s
  | none => b

/-- The JS `\s` character class (also used by `String.prototype.trim`). -/
def isJsSpace (c : Nat) : Bool :=
  c = 9 || c = 10 || c = 11 || c = 12 || c = 13 || c = 32 || c = 0xA0 ||
  c = 0x1680 || (0x2000 ≤ c && c ≤ 0x200A) || c = 0x2028 || c = 0x2029 ||
  c = 0x202F || c = 0x205F || c = 0x3000 || c = 0xFEFF

/-- `String.prototype.trim`. -/
def jsTrim (s : List Nat) : List Nat :=
  ((s.dropWhile isJsSpace).reverse.dropWhile isJsSpace).reverse

/-- The characters of the glyph-strip class `[üö©üèÅüìçÔøΩ]` as they
stand in the source file (mojibake code points, all in the BMP). -/
def GLYPH_CLASS : List Nat :=
  [0xF8FF, 0xFC, 0xF6, 0xA9, 0xE8, 0xC5, 0xEC, 0xE7, 0xD4, 0xF8, 0x3A9]

/-- `key.replace(/^[...]\s*/, '').trim()`: drop one leading class character
plus following whitespace, then trim. -/
def cleanKey (s : List Nat) : List Nat :=
  let afterReplace :=
    match s with
    | [] => ([] : List Nat)
    | c :: t => if c ∈ GLYPH_CLASS then t.dropWhile isJsSpace else s
  jsTrim afterReplace

/-- The slice of a weather-report waypoint that `deduplicateWaypoints`
reads.  `latLngKey` is the rendered `lat_lng` fallback string. -/
structure WxWaypoint where
  wtype : Option (List Nat)
  locationName : Option (List Nat)
  location : Option (List Nat)
  latLngKey : List Nat
  distanceFromStart : ℚ
deriving DecidableEq, Repr

/-- The key a waypoint contributes to the seen-set (line 1880). -/
def dedupLocationKey (w : WxWaypoint) : List Nat :=
  jsOrStr w.locationName (jsOrStr w.location w.latLngKey)

/-- The key the duplicate lookup recomputes for already kept waypoints
(line 1889) — note its final fallback is the empty string, NOT the
`lat_lng` string. -/
def dedupPrevKey (w : WxWaypoint) : List Nat :=
  jsOrStr w.locationName (jsOrStr w.location [])

/-- One iteration of the `forEach` of `deduplicateWaypoints`: state is
`(uniqueWaypoints, seenLocations)`. -/
def dedupStep (st : List WxWaypoint × List (List Nat)) (w : WxWaypoint) :
    List WxWaypoint × List (List Nat) :=
  let (uniq, seen) := st
  if w.wtype = some (jsOfString "origin") ∨ w.wtype = some (jsOfString "destination") then
    (uniq ++ [w], seen)
  else
    let cleanLocationKey := cleanKey (dedupLocationKey w)
    if cleanLocationKey ∈ seen then
      match uniq.find? (fun wp => cleanKey (dedupPrevKey wp) = cleanLocationKey) with
      | some previousWaypoint =>
        if 2000 < |w.distanceFromStart - previousWaypoint.distanceFromStart| then
          (uniq ++ [w], seen)
        else (uniq, seen)
      | none => (uniq, seen)
    else (uniq ++ [w], seen ++ [cleanLocationKey])

/-- `deduplicateWaypoints` restricted to the waypoint list it rewrites. -/
def deduplicateWaypoints (waypoints : List WxWaypoint) : List WxWaypoint :=
  (waypoints.foldl dedupStep ([], [])).1

/-- Modelled from the amended claim's words: the deduplication rule as a
direct recursion — keep origin/destination; keep an unseen key and record
it; for a seen key, keep exactly when a previously kept waypoint whose
name-derived key matches is found and lies more than 2000 m away. -/
def dedupSpecGo (kept : List WxWaypoint) (seen : List (List Nat)) :
    List WxWaypoint → List WxWaypoint
  | [] => []
  | w :: rest =>
    if w.wtype = some (jsOfString "origin") ∨ w.wtype = some (jsOfString "destination") then
      w :: dedupSpecGo (kept ++ [w]) seen rest
    else
      let key := cleanKey (dedupLocationKey w)
      if key ∈ seen then
        match kept.find? (fun wp => cleanKey (dedupPrevKey wp) = key) with
        | some prev =>
          if 2000 < |w.distanceFromStart - prev.distanceFromStart| then
            w :: dedupSpecGo (kept ++ [w]) seen rest
          else dedupSpecGo kept seen rest
        | none => dedupSpecGo kept seen rest
      else w :: dedupSpecGo (kept ++ [w]) (seen ++ [key]) rest

/-! ## Shared concrete payloads -/

/-- A baseline `current` record used by the concrete weather instances. -/
def entryBase : WeatherEntry :=
  { dt := 0, temp := 20, humidity := 50, wind_speed := some 1,
    visibility := some 10000, weatherDesc := "clear", rain1h := none,
    rain3h := none, snow1h := none, snow3h := none, feels_like := none,
    wind_gust := none, wind_deg := none, pop := none }


/-- Minutely entries for the concrete minute-band instances: entry 0 has
7 mm precipitation, entries 1-5 have 0. -/
def c2minutely : List MinuteEntry :=
  [⟨60, some 7⟩, ⟨120, some 0⟩, ⟨180, some 0⟩, ⟨240, some 0⟩, ⟨300, some 0⟩,
   ⟨360, some 0⟩]

/-- Payload with a short minutely array and no hourly data. -/
def c2resp : ApiResponse :=
  { current := entryBase, minutely := some c2minutely, hourly := none, daily := none }

/-- Hourly entry at T+2h, 5 degrees. -/
def c7hour1 : WeatherEntry := { entryBase with dt := 7200, temp := 5 }

/-- Hourly entry at T+3h, 9 degrees. -/
def c7hour2 : WeatherEntry := { entryBase with dt := 10800, temp := 9 }

/-- Payload with two hourly entries and no minutely data. -/
def c7resp : ApiResponse :=
  { current := entryBase, minutely := none, hourly := some [c7hour1, c7hour2], daily := none }

/-- Payload with only a current record (wind speed 1 m/s). -/
def c9resp : ApiResponse :=
  { current := entryBase, minutely := none, hourly := none, daily := none }


/-- Two intermediate waypoints without resolved names whose shared key
comes from the lat/lng fallback, 5000 m apart along the route. -/
def c3w1 : WxWaypoint :=
  { wtype := none, locationName := none, location := none,
    latLngKey := jsOfString "1_2", distanceFromStart := 0 }

/-- Same fallback key as `c3w1`, 5000 m further along. -/
def c3w2 : WxWaypoint := { c3w1 with distanceFromStart := 5000 }

/-- An origin-flagged waypoint. -/
def c3origin : WxWaypoint :=
  { wtype := some (jsOfString "origin"), locationName := some (jsOfString "A"),
    location := none, latLngKey := jsOfString "0_0", distanceFromStart := 0 }

/-! # Theorems -/

deriving instance DecidableEq for Except

/-! ## Rounding bounds -/

theorem le_jsRound_of_le (a : ℤ) (q : ℚ) (h : (a : ℚ) ≤ q) : a ≤ jsRound q := by
  unfold jsRound
  rw [Int.le_floor]
  linarith

theorem jsRound_le_of_lt (q : ℚ) (b : ℤ) (h : q < (b : ℚ)) : jsRound q ≤ b := by
  unfold jsRound
  have : (⌊q + 1 / 2⌋ : ℤ) < b + 1 := by
    rw [Int.floor_lt]
    push_cast
    linarith
  omega

/-! ## Varint stream decoding (C5 support) -/

theorem foldl_decodeStep_shift :
    ∀ (s : List Nat) (st : Nat × Nat × List Int) (h : s ≠ []),
      ((s.foldl decodeStep st).2.1 = 0 ↔
        Nat.land (u32 (decodeChar (s.getLast h))) 0x20 = 0) := by
  intro s
  induction s with
  | nil => intro st h; exact absurd rfl h
  | cons c t ih =>
    intro st _
    cases t with
    | nil =>
      simp only [List.foldl, List.getLast]
      unfold decodeStep
      by_cases hc : Nat.land (u32 (decodeChar c)) 0x20 = 0
      · simp [hc]
      · simp [hc]
    | cons y t' =>
      have hne : y :: t' ≠ [] := by simp
      have hlast : (c :: y :: t').getLast (by simp) = (y :: t').getLast hne :=
        List.getLast_cons hne
      rw [List.foldl_cons]
      rw [hlast]
      exact ih (decodeStep st c) hne

/-! ## Error classification of the decoder (C4 support) -/

theorem decodeUnsignedValues_error_eq (s : List Nat) (e : String)
    (h : decodeUnsignedValues s = Except.error e) : e = "Invalid encoding" := by
  unfold decodeUnsignedValues at h
  by_cases hs : (s.foldl decodeStep (0, 0, [])).2.1 > 0
  · simp [hs] at h
    exact h.symm
  · simp [hs] at h

theorem decodeHeader_error_eq (v hd : Int) (e : String)
    (h : decodeHeader v hd = Except.error e) : e = "Invalid format version" := by
  unfold decodeHeader at h
  by_cases hv : v ≠ 1
  · simp [hv] at h
    exact h.symm
  · simp [hv] at h

theorem decodeGroups2_error_eq :
    ∀ (n : ℕ) (l : List Int) (f : ℚ) (a b : Int) (e : String), l.length = n →
      decodeGroups2 f l a b = Except.error e →
      e = "Invalid encoding. Premature ending reached" := by
  intro n
  induction n using Nat.strong_induction_on with
  | _ n ih =>
    intro l f a b e hl h
    match l with
    | [] => simp [decodeGroups2] at h
    | [d] =>
      simp [decodeGroups2] at h
      exact h.symm
    | d1 :: d2 :: rest =>
      rw [decodeGroups2] at h
      rcases hrec : decodeGroups2 f rest (a + toSigned d1) (b + toSigned d2) with e' | res
      · rw [hrec] at h
        simp at h
        have := ih rest.length (by simp at hl; omega) rest f
          (a + toSigned d1) (b + toSigned d2) e' rfl hrec
        rw [← h]; exact this
      · rw [hrec] at h
        simp at h

theorem decodeGroups3_error_eq :
    ∀ (n : ℕ) (l : List Int) (f g : ℚ) (a b c : Int) (e : String), l.length = n →
      decodeGroups3 f g l a b c = Except.error e →
      e = "Invalid encoding. Premature ending reached" := by
  intro n
  induction n using Nat.strong_induction_on with
  | _ n ih =>
    intro l f g a b c e hl h
    match l with
    | [] => simp [decodeGroups3] at h
    | [d] =>
      simp [decodeGroups3] at h
      exact h.symm
    | [d, d'] =>
      simp [decodeGroups3] at h
      exact h.symm
    | d1 :: d2 :: d3 :: rest =>
      rw [decodeGroups3] at h
      rcases hrec : decodeGroups3 f g rest (a + toSigned d1) (b + toSigned d2)
          (c + toSigned d3) with e' | res
      · rw [hrec] at h
        simp at h
        have := ih rest.length (by simp at hl; omega) rest f g
          (a + toSigned d1) (b + toSigned d2) (c + toSigned d3) e' rfl hrec
        rw [← h]; exact this
      · rw [hrec] at h
        simp at h

/-! ## Premature-ending parity (C6 support) -/

theorem decodeGroups2_odd_error :
    ∀ (n : ℕ) (l : List Int) (f : ℚ) (a b : Int), l.length = n → n % 2 = 1 →
      decodeGroups2 f l a b =
        Except.error "Invalid encoding. Premature ending reached" := by
  intro n
  induction n using Nat.strong_induction_on with
  | _ n ih =>
    intro l f a b hl hm
    match l with
    | [] => simp at hl; omega
    | [d] => rfl
    | d1 :: d2 :: rest =>
      rw [decodeGroups2]
      have hr : decodeGroups2 f rest (a + toSigned d1) (b + toSigned d2) =
          Except.error "Invalid encoding. Premature ending reached" := by
        apply ih rest.length (by simp at hl; omega) rest f _ _ rfl
        simp at hl; omega
      rw [hr]

theorem decodeGroups3_nonmultiple_error :
    ∀ (n : ℕ) (l : List Int) (f g : ℚ) (a b c : Int), l.length = n → n % 3 ≠ 0 →
      decodeGroups3 f g l a b c =
        Except.error "Invalid encoding. Premature ending reached" := by
  intro n
  induction n using Nat.strong_induction_on with
  | _ n ih =>
    intro l f g a b c hl hm
    match l with
    | [] => simp at hl; omega
    | [d] => rfl
    | [d, d'] => rfl
    | d1 :: d2 :: d3 :: rest =>
      rw [decodeGroups3]
      have hr : decodeGroups3 f g rest (a + toSigned d1) (b + toSigned d2)
          (c + toSigned d3) =
          Except.error "Invalid encoding. Premature ending reached" := by
        apply ih rest.length (by simp at hl; omega) rest f g _ _ _ rfl
        simp at hl; omega
      rw [hr]

/-! ## Claim C1 -/

/-- C1: the claimed encode/decode round trip fails outright on the code:
the manual encoder's output alphabet is incompatible with the decoder's
table (and its precision parameter is hard-coded), so already for the
single coordinate `[0, 0]` the encoder produces the char codes
`[84, 63, 63]`, whose decode throws `Invalid encoding` instead of
returning `[[0, 0]]`. -/
theorem c1_roundTrip_fails_at_origin :
    encodeFlexPolyline [[0, 0]] = [84, 63, 63] ∧
    decodePolyline (encodeFlexPolyline [[0, 0]]) =
      Except.error "Invalid encoding" := by
  have hz : encodeSignedVarintHERE 0 = [63] := by
    have h0 : jsShl 0 1 = 0 := rfl
    simp only [encodeSignedVarintHERE, if_neg (by norm_num : ¬ (0 : Int) < 0), h0]
    rw [encodeUnsignedVarintHERE]
    norm_num
    decide
  have henc : encodeFlexPolyline [[0, 0]] = [84, 63, 63] := by
    have e0 : jsRound (([0, 0] : List ℚ).getD 0 0 * 100000) - 0 = 0 := by
      norm_num [jsRound, List.getD_cons_zero]
    have e1 : jsRound (([0, 0] : List ℚ).getD 1 0 * 100000) - 0 = 0 := by
      norm_num [jsRound, List.getD_cons_succ, List.getD_cons_zero]
    simp only [encodeFlexPolyline, List.isEmpty, List.foldl, e0, e1, hz]
    rfl
  refine ⟨henc, ?_⟩
  rw [henc]
  rfl

/-! ## Claim C4 -/

/-- Decoding "BAw-BA" (header precision 0, delta pair (zigzag 2000,
zigzag 0)) succeeds with latitude 1000. -/
theorem decode_BAwBA_ok :
    decodePolyline [66, 65, 119, 45, 66, 65] = Except.ok [[1000, 0]] := by
  have h1 : decodeUnsignedValues [66, 65, 119, 45, 66, 65] =
      Except.ok [1, 0, 2000, 0] := rfl
  have h2 : decodeHeader (([1, 0, 2000, 0] : List Int).getD 0 0)
      (([1, 0, 2000, 0] : List Int).getD 1 0) = Except.ok (0, 0, 0) := rfl
  have h3 : toSigned 2000 = 1000 := rfl
  have h4 : toSigned 0 = 0 := rfl
  simp only [decodePolyline, h1, decodeFromStream, h2, decodeGroups2, h3, h4,
    List.drop]
  norm_num

/-- C4 counterexample: decoding the string with char codes
`[66, 65, 119, 45, 66, 65]` ("BAw-BA") succeeds and returns latitude 1000,
which is not within `[-90, 90]` — the decoder performs no range validation
at all. -/
theorem c4_counterexample_lat_1000 :
    decodePolyline [66, 65, 119, 45, 66, 65] = Except.ok [[1000, 0]] ∧
    ¬ ((1000 : ℚ) ≤ 90) := by
  refine ⟨decode_BAwBA_ok, by norm_num⟩

/-- C4 (amended): decode never rejects nor clamps out-of-range
coordinates; its only failure modes are the three codec errors (truncated
varint, bad format version, premature ending) — no `OutOfRangeCoordinate`
error exists — and an out-of-range accumulated value is returned
unchanged, as the concrete decode returning latitude 1000 shows. -/
theorem c4_no_out_of_range_error :
    (∀ (s : List Nat) (e : String), decodePolyline s = Except.error e →
      e = "Invalid encoding" ∨ e = "Invalid format version" ∨
      e = "Invalid encoding. Premature ending reached") ∧
    decodePolyline [66, 65, 119, 45, 66, 65] = Except.ok [[1000, 0]] := by
  constructor
  · intro s e h
    unfold decodePolyline at h
    rcases hu : decodeUnsignedValues s with e' | decoder
    · rw [hu] at h
      simp only [] at h
      injection h with h2
      left
      rw [← h2]
      exact decodeUnsignedValues_error_eq s e' hu
    · rw [hu] at h
      simp only [] at h
      unfold decodeFromStream at h
      rcases hh : decodeHeader (decoder.getD 0 0) (decoder.getD 1 0) with e'' | hd
      · rw [hh] at h
        simp only [] at h
        injection h with h2
        right; left
        rw [← h2]
        exact decodeHeader_error_eq _ _ _ hh
      · obtain ⟨p, t3, tp⟩ := hd
        rw [hh] at h
        simp only [] at h
        by_cases h3 : t3 ≠ 0
        · rw [if_pos h3] at h
          right; right
          exact decodeGroups3_error_eq (decoder.drop 2).length _ _ _ _ _ _ _ rfl h
        · rw [if_neg h3] at h
          right; right
          exact decodeGroups2_error_eq (decoder.drop 2).length _ _ _ _ _ rfl h
  · exact decode_BAwBA_ok

/-- C4 witness: the general part of `c4_no_out_of_range_error` applied to
the concrete truncated input `[119]` (one symbol with the continuation bit
set). -/
theorem c4_no_out_of_range_error_witness :
    ("Invalid encoding" = "Invalid encoding" ∨
      "Invalid encoding" = "Invalid format version" ∨
      "Invalid encoding" = "Invalid encoding. Premature ending reached") ∧
    decodePolyline [66, 65, 119, 45, 66, 65] = Except.ok [[1000, 0]] :=
  ⟨c4_no_out_of_range_error.1 [119] "Invalid encoding" (by decide),
   c4_no_out_of_range_error.2⟩

/-! ## Claim C5 -/

/-- C5: the varint stream decoder succeeds exactly when the input is empty
or ends on a symbol whose continuation bit (0x20) is clear; it fails with
`Invalid encoding` exactly when the final symbol leaves a continuation
pending; the empty input yields the empty list. -/
theorem c5_truncation_detection :
    decodeUnsignedValues [] = Except.ok [] ∧
    ∀ (s : List Nat) (h : s ≠ []),
      (Nat.land (u32 (decodeChar (s.getLast h))) 0x20 = 0 →
        ∃ l, decodeUnsignedValues s = Except.ok l) ∧
      (Nat.land (u32 (decodeChar (s.getLast h))) 0x20 ≠ 0 →
        decodeUnsignedValues s = Except.error "Invalid encoding") := by
  constructor
  · decide
  · intro s h
    have hs := foldl_decodeStep_shift s (0, 0, []) h
    constructor
    · intro hclear
      have h0 : (s.foldl decodeStep (0, 0, [])).2.1 = 0 := hs.mpr hclear
      refine ⟨(s.foldl decodeStep (0, 0, [])).2.2, ?_⟩
      unfold decodeUnsignedValues
      simp [h0]
    · intro hset
      have h0 : (s.foldl decodeStep (0, 0, [])).2.1 ≠ 0 := by
        intro hc
        exact hset (hs.mp hc)
      unfold decodeUnsignedValues
      simp [Nat.pos_of_ne_zero h0]

/-- C5 witness: the clear-bit case on `[66]` ('B', emitting `[1]`) and the
pending-continuation case on `[119]` ('w'). -/
theorem c5_truncation_detection_witness :
    (∃ l, decodeUnsignedValues [66] = Except.ok l) ∧
    decodeUnsignedValues [119] = Except.error "Invalid encoding" :=
  ⟨(c5_truncation_detection.2 [66] (by decide)).1 (by decide),
   (c5_truncation_detection.2 [119] (by decide)).2 (by decide)⟩

/-! ## Claim C6 -/

/-- C6: on a decoded integer stream with at least the two header integers
and a valid format version, a remaining count that is not a multiple of
the group size (2 without a third dimension, 3 with one) makes the
coordinate decode fail with the premature-ending error — the `Except`
result carries no partial coordinate list. -/
theorem c6_premature_ending :
    ∀ (D : List Int), 2 ≤ D.length → D.getD 0 0 = 1 →
      (D.length - 2) %
        (if jsAnd (jsShr (D.getD 1 0) 4) 7 ≠ 0 then 3 else 2) ≠ 0 →
      decodeFromStream D =
        Except.error "Invalid encoding. Premature ending reached" := by
  intro D hlen hver hmod
  unfold decodeFromStream
  have hh : decodeHeader (D.getD 0 0) (D.getD 1 0) =
      Except.ok (jsAnd (D.getD 1 0) 15, jsAnd (jsShr (D.getD 1 0) 4) 7,
        jsAnd (jsShr (D.getD 1 0) 7) 15) := by
    unfold decodeHeader
    rw [hver]
    simp
  rw [hh]
  simp only []
  have hdrop : (D.drop 2).length = D.length - 2 := by
    simp [List.length_drop]
  by_cases h3 : jsAnd (jsShr (D.getD 1 0) 4) 7 ≠ 0
  · rw [if_pos h3]
    apply decodeGroups3_nonmultiple_error (D.drop 2).length _ _ _ _ _ _ rfl
    rw [hdrop]
    rw [if_pos h3] at hmod
    exact hmod
  · rw [if_neg h3]
    apply decodeGroups2_odd_error (D.drop 2).length _ _ _ _ rfl
    rw [hdrop]
    rw [if_neg h3] at hmod
    omega

/-- C6 witness: the stream `[1, 0, 2000, 0, 6]` (valid header, one full
pair, one leftover integer). -/
theorem c6_premature_ending_witness :
    decodeFromStream [1, 0, 2000, 0, 6] =
      Except.error "Invalid encoding. Premature ending reached" :=
  c6_premature_ending [1, 0, 2000, 0, 6] (by decide) (by decide) (by decide)

/-! ## Forecast-band path lemmas (C2 / C7 support) -/

theorem select_instant_eq (resp : ApiResponse) (target : Int)
    (h : target - resp.current.dt < 300) :
    selectWeatherUpTo48Hours resp target = Except.ok (instantData resp.current) := by
  unfold selectWeatherUpTo48Hours
  rw [if_pos h]

theorem select_minute_eq (resp : ApiResponse) (target : Int)
    (ms : List MinuteEntry) (m : MinuteEntry)
    (h1 : ¬ (target - resp.current.dt < 300))
    (h2 : 300 ≤ target - resp.current.dt ∧ target - resp.current.dt ≤ 3600 ∧
      resp.minutely.isSome = true)
    (hms : resp.minutely = some ms)
    (hm : targetMinuteOf ms ((target - resp.current.dt) / 60).toNat = some m) :
    selectWeatherUpTo48Hours resp target =
      Except.ok (minuteData
        (minuteSource resp ((target - resp.current.dt) / 60).toNat) m
        (minuteRainProbability ms ((target - resp.current.dt) / 60).toNat
          (jsOrElse m.precipitation 0))) := by
  unfold selectWeatherUpTo48Hours
  rw [if_neg h1, if_pos h2]
  have hgd : resp.minutely.getD [] = ms := by rw [hms]; rfl
  rw [hgd]
  simp only [hm]

theorem select_hour_eq (resp : ApiResponse) (target : Int)
    (hs : List WeatherEntry)
    (h1 : ¬ (target - resp.current.dt < 300))
    (h2 : ¬ (300 ≤ target - resp.current.dt ∧ target - resp.current.dt ≤ 3600 ∧
      resp.minutely.isSome = true))
    (hhs : resp.hourly = some hs) :
    (∀ p n, findPrevNext target none hs = (some p, some n) →
      selectWeatherUpTo48Hours resp target =
        Except.ok (formatHourlyData
          (if 30 < (target - p.dt) / 60 then n else p))) ∧
    (∀ p, findPrevNext target none hs = (some p, none) →
      selectWeatherUpTo48Hours resp target = Except.ok (formatHourlyData p)) ∧
    (∀ n, findPrevNext target none hs = (none, some n) →
      selectWeatherUpTo48Hours resp target = Except.ok (formatHourlyData n)) := by
  have hlen : ∀ (a : Option WeatherEntry) (b : Option WeatherEntry),
      findPrevNext target none hs = (a, b) → (a ≠ none ∨ b ≠ none) →
      0 < hs.length := by
    intro a b hab hne
    cases hs with
    | nil =>
      unfold findPrevNext at hab
      cases hab
      rcases hne with hne | hne <;> exact absurd rfl hne
    | cons x t => simp
  refine ⟨?_, ?_, ?_⟩
  · intro p n hpn
    unfold selectWeatherUpTo48Hours
    rw [if_neg h1, if_neg h2]
    simp only [hhs]
    rw [if_pos (hlen _ _ hpn (Or.inl (by simp)))]
    simp only [hpn]
  · intro p hpn
    unfold selectWeatherUpTo48Hours
    rw [if_neg h1, if_neg h2]
    simp only [hhs]
    rw [if_pos (hlen _ _ hpn (Or.inl (by simp)))]
    simp only [hpn]
  · intro n hpn
    unfold selectWeatherUpTo48Hours
    rw [if_neg h1, if_neg h2]
    simp only [hhs]
    rw [if_pos (hlen _ _ hpn (Or.inr (by simp)))]
    simp only [hpn]

/-! ## Claim C2 -/

/-- C2 (amended): a target less than 300 s after `current.dt` (negative
differences included) yields the instant-band sample marked current; with
`300 ≤ diff ≤ 3600` and a non-empty minutely array present, the sample's
precipitation comes from `minutely[floor(diff/60)]` when that index is in
bounds and otherwise from `minutely[0]` (the first entry, NOT the last:
out-of-range indices are not clamped). -/
theorem c2_band_selection :
    ∀ (resp : ApiResponse) (target : Int),
      (target - resp.current.dt < 300 →
        selectWeatherUpTo48Hours resp target = Except.ok (instantData resp.current) ∧
        (instantData resp.current).isCurrentData = true) ∧
      (∀ ms : List MinuteEntry, resp.minutely = some ms → ms ≠ [] →
        300 ≤ target - resp.current.dt → target - resp.current.dt ≤ 3600 →
        ∃ m : MinuteEntry,
          targetMinuteOf ms ((target - resp.current.dt) / 60).toNat = some m ∧
          ∃ d : WeatherData,
            selectWeatherUpTo48Hours resp target = Except.ok d ∧
            d.precipitation = jsOrElse m.precipitation 0) := by
  intro resp target
  constructor
  · intro hlt
    exact ⟨select_instant_eq resp target hlt, rfl⟩
  · intro ms hms hne hge hle
    obtain ⟨m, hm⟩ : ∃ m,
        targetMinuteOf ms ((target - resp.current.dt) / 60).toNat = some m := by
      unfold targetMinuteOf
      cases hq : ms.get? ((target - resp.current.dt) / 60).toNat with
      | some x => exact ⟨x, rfl⟩
      | none =>
        cases ms with
        | nil => exact absurd rfl hne
        | cons a t => exact ⟨a, rfl⟩
    refine ⟨m, hm, ?_⟩
    exact ⟨_, select_minute_eq resp target ms m (by omega) ⟨hge, hle, by rw [hms]; rfl⟩
      hms hm, rfl⟩

/-- C2 counterexample: with a 6-entry minutely array and `diff = 3600`
(index 60, out of bounds), the code takes the precipitation of
`minutely[0]` (7 mm) while the claim's clamped index `min 60 5 = 5` holds
0 mm. -/
theorem c2_counterexample_no_clamp :
    (selectWeatherUpTo48Hours c2resp 3600).map WeatherData.precipitation =
      Except.ok 7 ∧
    jsOrElse ((c2minutely.getD
      (min (((3600 : Int) - c2resp.current.dt) / 60).toNat (c2minutely.length - 1))
      ⟨0, none⟩).precipitation) 0 = 0 ∧
    (7 : ℚ) ≠ 0 := by
  refine ⟨?_, by norm_num [c2minutely, c2resp, entryBase, jsOrElse], by norm_num⟩
  have hm : targetMinuteOf c2minutely
      (((3600 : Int) - c2resp.current.dt) / 60).toNat = some ⟨60, some 7⟩ := rfl
  rw [select_minute_eq c2resp 3600 c2minutely ⟨60, some 7⟩ (by decide) (by decide) rfl hm]
  norm_num [minuteData, jsOrElse, Except.map]

/-- C2 witness: the instant part at `diff = 100` and the minute part at
`diff = 3600` on the concrete payload. -/
theorem c2_band_selection_witness :
    (selectWeatherUpTo48Hours c2resp 100 = Except.ok (instantData c2resp.current) ∧
      (instantData c2resp.current).isCurrentData = true) ∧
    (∃ m : MinuteEntry,
      targetMinuteOf c2minutely (((3600 : Int) - c2resp.current.dt) / 60).toNat =
        some m ∧
      ∃ d : WeatherData,
        selectWeatherUpTo48Hours c2resp 3600 = Except.ok d ∧
        d.precipitation = jsOrElse m.precipitation 0) :=
  ⟨(c2_band_selection c2resp 100).1 (by decide),
   (c2_band_selection c2resp 3600).2 c2minutely rfl (by decide) (by decide) (by decide)⟩

/-! ## Claim C7 -/

/-- C7 (amended): on the hourly path with both straddling neighbours
found, the later entry is chosen exactly when `floor((target - earlier.dt)
/ 60) > 30`, i.e. when the target is at least 31 whole minutes (1860 s)
past the earlier entry — not when it is merely more than 30 minutes
(1800 s) past it; with a single neighbour, that neighbour is used. -/
theorem c7_hour_tiebreak :
    ∀ (resp : ApiResponse) (target : Int) (hs : List WeatherEntry),
      ¬ (target - resp.current.dt < 300) →
      ¬ (300 ≤ target - resp.current.dt ∧ target - resp.current.dt ≤ 3600 ∧
        resp.minutely.isSome = true) →
      resp.hourly = some hs →
      (∀ p n, findPrevNext target none hs = (some p, some n) →
        selectWeatherUpTo48Hours resp target =
          Except.ok (formatHourlyData
            (if 30 < (target - p.dt) / 60 then n else p))) ∧
      (∀ p, findPrevNext target none hs = (some p, none) →
        selectWeatherUpTo48Hours resp target = Except.ok (formatHourlyData p)) ∧
      (∀ n, findPrevNext target none hs = (none, some n) →
        selectWeatherUpTo48Hours resp target = Except.ok (formatHourlyData n)) :=
  fun resp target hs h1 h2 hhs => select_hour_eq resp target hs h1 h2 hhs

/-- C7 counterexample: hourly entries at T+2h (5°) and T+3h (9°), target
T+2h30m30s — 1830 s past the earlier entry, so more than 30 minutes — yet
the code picks the earlier entry (5°) because `floor(1830/60) = 30` is not
`> 30`; the claim predicts the later entry (9°). -/
theorem c7_counterexample_1830s :
    (selectWeatherUpTo48Hours c7resp 9030).map WeatherData.temperature =
      Except.ok 5 ∧
    1800 < (9030 : Int) - c7hour1.dt ∧ c7hour2.temp = 9 ∧ (5 : ℚ) ≠ 9 := by
  have hfp : findPrevNext 9030 none [c7hour1, c7hour2] =
      (some c7hour1, some c7hour2) := rfl
  have hsel := (select_hour_eq c7resp 9030 [c7hour1, c7hour2] (by decide) (by decide)
    rfl).1 c7hour1 c7hour2 hfp
  rw [hsel]
  norm_num [c7hour1, c7hour2, entryBase, formatHourlyData, Except.map]

/-- C7 witness: the two-neighbour case at the concrete payload and target
T+2h30m30s. -/
theorem c7_hour_tiebreak_witness :
    selectWeatherUpTo48Hours c7resp 9030 =
      Except.ok (formatHourlyData
        (if 30 < ((9030 : Int) - c7hour1.dt) / 60 then c7hour2 else c7hour1)) :=
  (c7_hour_tiebreak c7resp 9030 [c7hour1, c7hour2] (by decide) (by decide) rfl).1
    c7hour1 c7hour2 rfl

/-! ## Claim C9 -/

/-- C9 (amended): in every band's sample builder the wind speed is
`Math.round(wind_speed × 3.6)` — rounded to an integer, not the exact
product — with a missing/zero source field treated as 0; the visibility is
`visibility / 1000` for the instant, minute, hour and current-fallback
builders, while the daily sample carries no visibility field at all. -/
theorem c9_unit_conversions :
    ∀ (cur src ch : WeatherEntry) (tm : MinuteEntry) (rp : ℚ)
      (nh : Option WeatherEntry) (d : DailyEntry),
      (instantData cur).windSpeed = jsRound (jsOrElse cur.wind_speed 0 * (3.6 : ℚ)) ∧
      (instantData cur).visibility = some (jsOrElse cur.visibility 0 / 1000) ∧
      (minuteData src tm rp).windSpeed =
        jsRound (jsOrElse src.wind_speed 0 * (3.6 : ℚ)) ∧
      (minuteData src tm rp).visibility = some (jsOrElse src.visibility 0 / 1000) ∧
      (formatHourlyData ch).windSpeed =
        jsRound (jsOrElse ch.wind_speed 0 * (3.6 : ℚ)) ∧
      (formatHourlyData ch).visibility = some (jsOrElse ch.visibility 0 / 1000) ∧
      (formatCurrent cur nh).windSpeed =
        jsRound (jsOrElse cur.wind_speed 0 * (3.6 : ℚ)) ∧
      (formatCurrent cur nh).visibility = some (jsOrElse cur.visibility 0 / 1000) ∧
      (dailyData d).windSpeed = jsRound (jsOrElse d.wind_speed 0 * (3.6 : ℚ)) ∧
      (dailyData d).visibility = none :=
  fun _ _ _ _ _ _ _ => ⟨rfl, rfl, rfl, rfl, rfl, rfl, rfl, rfl, rfl, rfl⟩

/-- C9 counterexample: a current record with wind speed 1 m/s produces a
sample with windSpeed 4 (the rounded value of 3.6), which is not equal to
1 × 3.6. -/
theorem c9_counterexample_rounding :
    (selectWeatherUpTo48Hours c9resp 0).map WeatherData.windSpeed = Except.ok 4 ∧
    entryBase.wind_speed = some 1 ∧ ((4 : ℚ) ≠ 1 * (3.6 : ℚ)) := by
  refine ⟨?_, rfl, by norm_num⟩
  rw [select_instant_eq c9resp 0 (by decide)]
  norm_num [instantData, jsOrElse, jsRound, entryBase, c9resp, Except.map]

/-! ## Claim C8 -/

/-- C8: when the weather fetch (or any step of selection) fails, the
pipeline catches the error and returns the synthetic demo sample instead
of propagating it, and for any random source with values in `[0, 1)` every
field of that sample is structurally valid and within the generator's
documented ranges. -/
theorem c8_fallback_synthetic :
    ∀ (e : String) (ts nowTs : Int) (rnd : ℕ → ℚ),
      (∀ i, 0 ≤ rnd i ∧ rnd i < 1) →
      ∀ d, d = generateDemoWeatherPoint rnd nowTs →
      getWeatherAtPoint (Except.error e) ts rnd nowTs = d ∧
      (10 ≤ d.temperature ∧ d.temperature < 25) ∧
      d.weatherDesc ∈ ["Clear sky", "Partly cloudy", "Cloudy", "Light rain"] ∧
      (50 ≤ d.humidity ∧ d.humidity < 90) ∧
      (5 ≤ d.windSpeed ∧ d.windSpeed ≤ 25) ∧
      (∃ v, d.visibility = some v ∧ 8 ≤ v ∧ v < 15) ∧
      (0 ≤ d.precipitation ∧ d.precipitation < 5) ∧
      (0 ≤ d.rainProbability ∧ d.rainProbability ≤ 100) ∧
      (∀ g, d.windGust = some g → 8 ≤ g ∧ g ≤ 25) ∧
      (∀ w, d.windDeg = some w → 0 ≤ w ∧ w ≤ 360) ∧
      d.isCurrentData = true := by
  intro e ts nowTs rnd hr d hd
  subst hd
  obtain ⟨h0a, h0b⟩ := hr 0
  obtain ⟨h1a, h1b⟩ := hr 1
  obtain ⟨h2a, h2b⟩ := hr 2
  obtain ⟨h3a, h3b⟩ := hr 3
  obtain ⟨h4a, h4b⟩ := hr 4
  obtain ⟨h6a, h6b⟩ := hr 6
  obtain ⟨h7a, h7b⟩ := hr 7
  obtain ⟨h10a, h10b⟩ := hr 10
  obtain ⟨h12a, h12b⟩ := hr 12
  refine ⟨rfl, ⟨?_, ?_⟩, ?_, ⟨?_, ?_⟩, ⟨?_, ?_⟩, ?_, ⟨?_, ?_⟩, ⟨?_, ?_⟩, ?_, ?_, rfl⟩
  · show (10 : ℚ) ≤ 10 + rnd 0 * 15
    nlinarith
  · show 10 + rnd 0 * 15 < (25 : ℚ)
    nlinarith
  · show (["Clear sky", "Partly cloudy", "Cloudy", "Light rain"].getD
      (⌊rnd 1 * 4⌋).toNat "") ∈ _
    have hlt : ⌊rnd 1 * 4⌋ < 4 := by
      rw [Int.floor_lt]
      push_cast
      nlinarith
    have hge : (0 : ℤ) ≤ ⌊rnd 1 * 4⌋ := Int.floor_nonneg.mpr (by nlinarith)
    have hk : (⌊rnd 1 * 4⌋).toNat = 0 ∨ (⌊rnd 1 * 4⌋).toNat = 1 ∨
        (⌊rnd 1 * 4⌋).toNat = 2 ∨ (⌊rnd 1 * 4⌋).toNat = 3 := by omega
    rcases hk with hk | hk | hk | hk <;> rw [hk] <;> decide
  · show (50 : ℚ) ≤ 50 + rnd 2 * 40
    nlinarith
  · show 50 + rnd 2 * 40 < (90 : ℚ)
    nlinarith
  · show (5 : ℤ) ≤ jsRound (5 + rnd 3 * 20)
    exact le_jsRound_of_le 5 _ (by push_cast; nlinarith)
  · show jsRound (5 + rnd 3 * 20) ≤ (25 : ℤ)
    exact jsRound_le_of_lt _ 25 (by push_cast; nlinarith)
  · exact ⟨8 + rnd 4 * 7, rfl, by nlinarith, by nlinarith⟩
  · show (0 : ℚ) ≤ (if rnd 5 < (0.3 : ℚ) then rnd 6 * 5 else 0)
    split
    · nlinarith
    · norm_num
  · show (if rnd 5 < (0.3 : ℚ) then rnd 6 * 5 else 0) < (5 : ℚ)
    split
    · nlinarith
    · norm_num
  · show (0 : ℚ) ≤ ((jsRound (rnd 7 * 100) : Int) : ℚ)
    have h : (0 : Int) ≤ jsRound (rnd 7 * 100) :=
      le_jsRound_of_le 0 _ (by push_cast; nlinarith)
    exact_mod_cast h
  · show ((jsRound (rnd 7 * 100) : Int) : ℚ) ≤ 100
    have h : jsRound (rnd 7 * 100) ≤ (100 : Int) :=
      jsRound_le_of_lt _ 100 (by push_cast; nlinarith)
    exact_mod_cast h
  · intro g
    show (if (0.2 : ℚ) < rnd 9 then some (jsRound (8 + rnd 10 * 17)) else none) =
      some g → _
    split
    · intro hg
      injection hg with hg
      subst hg
      exact ⟨le_jsRound_of_le 8 _ (by push_cast; nlinarith),
        jsRound_le_of_lt _ 25 (by push_cast; nlinarith)⟩
    · intro hg
      cases hg
  · intro w
    show (if (0.1 : ℚ) < rnd 11 then some ((jsRound (rnd 12 * 360) : Int) : ℚ)
      else none) = some w → _
    split
    · intro hw
      injection hw with hw
      subst hw
      constructor
      · have h : (0 : Int) ≤ jsRound (rnd 12 * 360) :=
          le_jsRound_of_le 0 _ (by push_cast; nlinarith)
        exact_mod_cast h
      · have h : jsRound (rnd 12 * 360) ≤ (360 : Int) :=
          jsRound_le_of_lt _ 360 (by push_cast; nlinarith)
        exact_mod_cast h
    · intro hw
      cases hw

/-- C8 witness: a failed fetch with the constant random source 1/2. -/
theorem c8_fallback_synthetic_witness :
    getWeatherAtPoint (Except.error "boom") 0 (fun _ => (1 : ℚ) / 2) 0 =
      generateDemoWeatherPoint (fun _ => (1 : ℚ) / 2) 0 ∧
    10 ≤ (generateDemoWeatherPoint (fun _ => (1 : ℚ) / 2) 0).temperature := by
  have h := c8_fallback_synthetic "boom" 0 0 (fun _ => (1 : ℚ) / 2)
    (fun i => ⟨by norm_num, by norm_num⟩)
    (generateDemoWeatherPoint (fun _ => (1 : ℚ) / 2) 0) rfl
  exact ⟨h.1, h.2.1.1⟩


/-! ## Claim C10 -/

/-- C10: for n ≥ 2 waypoints the timing calculator preserves length and
order, uses distance-based progress `distance[i]/distance[last]` when this
waypoint's cumulative distance is present and the last one's is positive,
index-based progress `i/(n-1)` otherwise, and sets the arrival epoch to
`departure + round(duration × progress)`. -/
theorem c10_waypoint_timings :
    ∀ (ws : List RouteWaypoint) (dur : ℚ) (dep : Int), 2 ≤ ws.length →
      (calculateWaypointTimings ws dur dep).length = ws.length ∧
      ∀ (i : ℕ) (hi : i < ws.length),
        (calculateWaypointTimings ws dur dep).get? i =
          some { src := ws.get ⟨i, hi⟩
                 progress :=
                  if (ws.get ⟨i, hi⟩).distance.isSome ∧
                      0 < (ws.getLast?.bind RouteWaypoint.distance).getD 0 then
                    ((ws.get ⟨i, hi⟩).distance.getD 0) /
                      ((ws.getLast?.bind RouteWaypoint.distance).getD 0)
                  else (i : ℚ) / ((ws.length - 1 : ℕ) : ℚ)
                 estimatedArrivalTime := dep + jsRound (dur *
                  (if (ws.get ⟨i, hi⟩).distance.isSome ∧
                      0 < (ws.getLast?.bind RouteWaypoint.distance).getD 0 then
                    ((ws.get ⟨i, hi⟩).distance.getD 0) /
                      ((ws.getLast?.bind RouteWaypoint.distance).getD 0)
                  else (i : ℚ) / ((ws.length - 1 : ℕ) : ℚ))) } := by
  intro ws dur dep h2
  have hlen : (calculateWaypointTimings ws dur dep).length = ws.length := by
    simp [calculateWaypointTimings, List.length_mapIdx]
  refine ⟨hlen, ?_⟩
  intro i hi
  rw [List.get?_eq_get (by rw [hlen]; exact hi)]
  have hmax : (max 1 (ws.length - 1) : ℕ) = ws.length - 1 :=
    max_eq_right (by omega)
  unfold calculateWaypointTimings
  rw [List.get_mapIdx _ _ i hi]
  rw [hmax]

/-- C10 witness: two waypoints without distance data, 600 s duration. -/
theorem c10_waypoint_timings_witness :
    (calculateWaypointTimings [⟨0, 0, none⟩, ⟨1, 1, none⟩] 600 0).length = 2 ∧
    (calculateWaypointTimings [⟨0, 0, none⟩, ⟨1, 1, none⟩] 600 0).get? 1 =
      some { src := ⟨1, 1, none⟩, progress := 1, estimatedArrivalTime := 600 } := by
  have h := c10_waypoint_timings [⟨0, 0, none⟩, ⟨1, 1, none⟩] 600 0 (by norm_num)
  refine ⟨h.1, ?_⟩
  have h1 := h.2 1 (by norm_num)
  rw [h1]
  norm_num [jsRound]

/-! ## Deduplication support lemmas (C3) -/

theorem mem_dedupStep (st : List WxWaypoint × List (List Nat)) (w : WxWaypoint)
    (x : WxWaypoint) (hx : x ∈ st.1) : x ∈ (dedupStep st w).1 := by
  obtain ⟨uniq, seen⟩ := st
  unfold dedupStep
  simp only []
  split
  · exact List.mem_append_left _ hx
  · split
    · split
      · split
        · exact List.mem_append_left _ hx
        · exact hx
      · exact hx
    · exact List.mem_append_left _ hx

theorem mem_foldl_dedupStep :
    ∀ (ws : List WxWaypoint) (st : List WxWaypoint × List (List Nat))
      (x : WxWaypoint), x ∈ st.1 → x ∈ (ws.foldl dedupStep st).1 := by
  intro ws
  induction ws with
  | nil => intro st x hx; exact hx
  | cons w rest ih =>
    intro st x hx
    rw [List.foldl_cons]
    exact ih _ x (mem_dedupStep st w x hx)

theorem origin_kept :
    ∀ (ws : List WxWaypoint) (st : List WxWaypoint × List (List Nat))
      (w : WxWaypoint), w ∈ ws →
      (w.wtype = some (jsOfString "origin") ∨
        w.wtype = some (jsOfString "destination")) →
      w ∈ (ws.foldl dedupStep st).1 := by
  intro ws
  induction ws with
  | nil => intro st w hw; cases hw
  | cons x rest ih =>
    intro st w hw htype
    rw [List.foldl_cons]
    rcases List.mem_cons.mp hw with hw | hw
    · subst hw
      apply mem_foldl_dedupStep
      obtain ⟨uniq, seen⟩ := st
      unfold dedupStep
      simp only []
      rw [if_pos htype]
      exact List.mem_append_right _ (List.mem_singleton.mpr rfl)
    · exact ih (dedupStep st x) w hw htype

theorem foldl_dedupStep_spec :
    ∀ (ws : List WxWaypoint) (uniq : List WxWaypoint) (seen : List (List Nat)),
      (ws.foldl dedupStep (uniq, seen)).1 = uniq ++ dedupSpecGo uniq seen ws := by
  intro ws
  induction ws with
  | nil => intro uniq seen; simp [dedupSpecGo]
  | cons w rest ih =>
    intro uniq seen
    rw [List.foldl_cons]
    by_cases h1 : w.wtype = some (jsOfString "origin") ∨
        w.wtype = some (jsOfString "destination")
    · have hstep : dedupStep (uniq, seen) w = (uniq ++ [w], seen) := by
        unfold dedupStep
        simp only []
        rw [if_pos h1]
      rw [hstep, ih]
      rw [dedupSpecGo]
      rw [if_pos h1]
      simp
    · by_cases hk : cleanKey (dedupLocationKey w) ∈ seen
      · cases hfind : uniq.find? (fun wp => cleanKey (dedupPrevKey wp) =
            cleanKey (dedupLocationKey w)) with
        | some prev =>
          by_cases hd : 2000 < |w.distanceFromStart - prev.distanceFromStart|
          · have hstep : dedupStep (uniq, seen) w = (uniq ++ [w], seen) := by
              unfold dedupStep
              simp only []
              rw [if_neg h1, if_pos hk, hfind]
              simp only []
              rw [if_pos hd]
            rw [hstep, ih]
            rw [dedupSpecGo, if_neg h1]
            simp only []
            rw [if_pos hk, hfind]
            simp only []
            rw [if_pos hd]
            simp
          · have hstep : dedupStep (uniq, seen) w = (uniq, seen) := by
              unfold dedupStep
              simp only []
              rw [if_neg h1, if_pos hk, hfind]
              simp only []
              rw [if_neg hd]
            rw [hstep, ih]
            rw [dedupSpecGo]
            rw [if_neg h1, if_pos hk, hfind]
            simp only []
            rw [if_neg hd]
        | none =>
          have hstep : dedupStep (uniq, seen) w = (uniq, seen) := by
            unfold dedupStep
            simp only []
            rw [if_neg h1, if_pos hk, hfind]
          rw [hstep, ih]
          rw [dedupSpecGo]
          rw [if_neg h1, if_pos hk, hfind]
      · have hstep : dedupStep (uniq, seen) w =
            (uniq ++ [w], seen ++ [cleanKey (dedupLocationKey w)]) := by
          unfold dedupStep
          simp only []
          rw [if_neg h1, if_neg hk]
        rw [hstep, ih]
        rw [dedupSpecGo]
        rw [if_neg h1, if_neg hk]
        simp

/-! ## Claim C3 -/

/-- C3 (amended): deduplication always retains origin/destination
waypoints; another waypoint with an unseen normalized key is kept and its
key recorded; a waypoint with a seen key is kept exactly when the first
previously kept waypoint whose name-derived key (locationName or location,
else the empty string — NOT the lat/lng fallback) matches lies more than
2000 m away, and dropped otherwise — in particular a far-apart duplicate
whose key arose from the lat/lng fallback is dropped, not kept.  Stated as
equality with `dedupSpecGo`, the rule transcribed from these words. -/
theorem c3_dedup :
    ∀ (ws : List WxWaypoint),
      deduplicateWaypoints ws = dedupSpecGo [] [] ws ∧
      ∀ w ∈ ws, (w.wtype = some (jsOfString "origin") ∨
        w.wtype = some (jsOfString "destination")) →
        w ∈ deduplicateWaypoints ws := by
  intro ws
  constructor
  · have h := foldl_dedupStep_spec ws [] []
    simpa [deduplicateWaypoints] using h
  · intro w hw ht
    unfold deduplicateWaypoints
    exact origin_kept ws ([], []) w hw ht

/-- C3 counterexample: two nameless waypoints share the lat/lng-fallback
key "1_2" and lie 5000 m apart (> 2000 m), yet the second is dropped
because the duplicate lookup recomputes keys with an empty-string fallback
and finds no match. -/
theorem c3_counterexample :
    deduplicateWaypoints [c3w1, c3w2] = [c3w1] ∧
    cleanKey (dedupLocationKey c3w2) = cleanKey (dedupLocationKey c3w1) ∧
    c3w1.wtype = none ∧ c3w2.wtype = none ∧
    2000 < |c3w2.distanceFromStart - c3w1.distanceFromStart| := by
  refine ⟨by decide, rfl, rfl, rfl, by norm_num [c3w1, c3w2]⟩

/-- C3 witness: a single origin waypoint. -/
theorem c3_dedup_witness :
    deduplicateWaypoints [c3origin] = dedupSpecGo [] [] [c3origin] ∧
    c3origin ∈ deduplicateWaypoints [c3origin] :=
  ⟨(c3_dedup [c3origin]).1,
   (c3_dedup [c3origin]).2 c3origin (List.mem_singleton.mpr rfl) (Or.inl rfl)⟩

end WeatherRoute
